import Mathlib

/-!
Shallow embedding of the driver-state-detection core
(`context_analyzer.py`, `adaptive_scorer.py`, `pattern_recognizer.py`).

Python floats are modelled as rationals (all the arithmetic the claims
touch is exact rational arithmetic); Python lists and bounded deques are
modelled as Lean lists with explicit eviction; optional signals are
`Option ℚ`; the object dictionary is a record of the five boolean keys
the code reads.
-/

namespace DriverState

attribute [local semireducible] Rat.add Rat.mul Rat.inv Rat.sub

/-- Python list slice `xs[-n:]` (keeps the last `n` entries; the whole
list when it is shorter than `n`). -/
def pyTail (n : Nat) (xs : List α) : List α := xs.drop (xs.length - n)

/-- `collections.deque(maxlen := cap)` append: push on the right, evict
from the left when over capacity. -/
def dequeAppend (cap : Nat) (xs : List α) (x : α) : List α := pyTail cap (xs ++ [x])

/-- The zero-or-one-element list an optional signal contributes. -/
def optList : Option ℚ → List ℚ
  | none => []
  | some x => [x]

/-- Python `int()` truncation toward zero on a rational. -/
def pyInt (q : ℚ) : ℤ := if 0 ≤ q then ⌊q⌋ else ⌈q⌉

/-- Python slice `xs[i:]` with a possibly negative start index. -/
def pySliceFrom (i : ℤ) (xs : List α) : List α :=
  if 0 ≤ i then xs.drop i.toNat else xs.drop (xs.length - (-i).toNat)

/-- `ActivityType` constants of `context_analyzer.py`. -/
inductive ActivityType
  | FOCUSED_STUDYING
  | READING_BOOK
  | TAKING_NOTES
  | TYPING
  | THINKING
  | PHONE_DISTRACTION
  | DRINKING_WATER
  | LOOKING_AWAY
  | FACE_MISSING
  | UNKNOWN
deriving DecidableEq, Repr

/-- The five object-dictionary keys `analyze_context` reads
(`detected_objects.get(label, False)`). -/
structure DetectedObjects where
  book : Bool
  cell_phone : Bool
  laptop : Bool
  bottle : Bool
  cup : Bool
deriving DecidableEq, Repr

/-- Mutable state of `ContextAnalyzer`: the activity history is a
`deque(maxlen := 30)`. -/
structure ContextAnalyzer where
  activity_history : List ActivityType
  distraction_start_time : Option ℚ
  current_activity : ActivityType
deriving DecidableEq, Repr

/-- Fresh `ContextAnalyzer.__init__` state. -/
def ContextAnalyzer.init : ContextAnalyzer :=
  { activity_history := [], distraction_start_time := none,
    current_activity := ActivityType.UNKNOWN }

/-- Short-circuit test `gaze is not None and gaze > t`. -/
def gazeAbove (gaze : Option ℚ) (t : ℚ) : Bool :=
  match gaze with
  | none => false
  | some g => decide (t < g)

/-- Short-circuit test `gaze is None or gaze < t`. -/
def gazeBelowOrNone (gaze : Option ℚ) (t : ℚ) : Bool :=
  match gaze with
  | none => true
  | some g => decide (g < t)

/-- `ContextAnalyzer._classify_activity`: the priority-ordered rule
chain (first match wins).  The thresholds are the constants fixed in
`__init__` (`PHONE_PITCH_THRESHOLD = -60`, reading range `[-45, -25]`,
note range `[-50, -30]`, `THINKING_GAZE_THRESHOLD = 0.3`). -/
def classify_activity (pitch yaw gaze ear : Option ℚ)
    (has_book has_phone has_laptop has_bottle has_cup : Bool) : ActivityType :=
  match pitch with
  | none => ActivityType.UNKNOWN
  | some p =>
    if ((has_bottle || has_cup) = true) ∧ -15 < p then
      ActivityType.DRINKING_WATER
    else if has_phone = true ∨ p < -60 then
      ActivityType.PHONE_DISTRACTION
    else if has_book = true ∧ -45 ≤ p ∧ p ≤ -25 then
      ActivityType.READING_BOOK
    else if (has_book = false ∧ has_phone = false ∧ has_bottle = false ∧ has_cup = false)
        ∧ -50 ≤ p ∧ p ≤ -30 then
      ActivityType.TAKING_NOTES
    else if has_laptop = true ∧ -20 ≤ p ∧ p ≤ 0 then
      ActivityType.TYPING
    else if gazeAbove gaze (3/10) = true ∧ |p| < 20 then
      ActivityType.THINKING
    else if gazeAbove gaze (25/100) = true then
      ActivityType.LOOKING_AWAY
    else if |p| < 25 ∧ gazeBelowOrNone gaze (2/10) = true then
      ActivityType.FOCUSED_STUDYING
    else
      ActivityType.UNKNOWN

/-- The `productive_activities` set of `_evaluate_distraction`. -/
def productive (a : ActivityType) : Bool :=
  a = ActivityType.FOCUSED_STUDYING || a = ActivityType.READING_BOOK ||
    a = ActivityType.TAKING_NOTES || a = ActivityType.TYPING

/-- `ContextAnalyzer._evaluate_distraction` (reads the history as it is
before the current activity is appended, exactly as the source does). -/
def evaluate_distraction (history : List ActivityType) (activity : ActivityType)
    (pitch gaze ear : Option ℚ) : Bool × ℚ :=
  if productive activity = true then
    (false, 0)
  else if activity = ActivityType.DRINKING_WATER then
    let recent_drinking := history.countP (fun a => decide (a = ActivityType.DRINKING_WATER))
    if recent_drinking < 15 then (false, 0) else (true, 2/10)
  else if activity = ActivityType.THINKING then
    let recent_thinking := history.countP (fun a => decide (a = ActivityType.THINKING))
    if recent_thinking < 8 then (false, 1/10) else (true, 3/10)
  else if activity = ActivityType.PHONE_DISTRACTION then
    (true, 9/10)
  else if activity = ActivityType.FACE_MISSING then
    (true, 8/10)
  else if activity = ActivityType.LOOKING_AWAY then
    (true, 5/10)
  else
    (true, 3/10)

/-- `ContextAnalyzer.analyze_context`: returns the
`(activity, is_distracted, severity)` triple together with the updated
analyzer state. -/
def analyze_context (st : ContextAnalyzer) (t_now : ℚ)
    (head_pitch head_yaw head_roll gaze_score ear_score : Option ℚ)
    (detected_objects : DetectedObjects) (face_detected : Bool) :
    (ActivityType × Bool × ℚ) × ContextAnalyzer :=
  if face_detected = false then
    ((ActivityType.FACE_MISSING, true, 8/10),
     { st with activity_history :=
         dequeAppend 30 st.activity_history ActivityType.FACE_MISSING })
  else
    let has_book := detected_objects.book
    let has_phone := detected_objects.cell_phone
    let has_laptop := detected_objects.laptop
    let has_bottle := detected_objects.bottle
    let has_cup := detected_objects.cup
    let activity := classify_activity head_pitch head_yaw gaze_score ear_score
      has_book has_phone has_laptop has_bottle has_cup
    let r := evaluate_distraction st.activity_history activity head_pitch gaze_score ear_score
    ((activity, r.1, r.2),
     { activity_history := dequeAppend 30 st.activity_history activity,
       distraction_start_time := st.distraction_start_time,
       current_activity := activity })

/-- The `distracted_activities` set of `is_sustained_distraction`. -/
def distractedActivity (a : ActivityType) : Bool :=
  a = ActivityType.PHONE_DISTRACTION || a = ActivityType.FACE_MISSING ||
    a = ActivityType.LOOKING_AWAY

/-- `ContextAnalyzer.is_sustained_distraction`. -/
def is_sustained_distraction (st : ContextAnalyzer)
    (threshold_seconds fps : ℚ) : Bool :=
  let required : ℤ := pyInt (threshold_seconds * fps)
  if (st.activity_history.length : ℤ) < required then
    false
  else
    let recent := pySliceFrom (-required) st.activity_history
    let distracted_count := recent.countP distractedActivity
    decide ((distracted_count : ℚ) / (required : ℚ) > 8/10)

/-- `ContextAnalyzer.should_ignore_brief_distraction`. -/
def should_ignore_brief_distraction (duration : ℚ) : Bool :=
  decide (duration < 5)

/-! ### PatternRecognizer (`pattern_recognizer.py`) -/

/-- State of `PatternRecognizer`: three `deque(maxlen := window_size)`
sliding windows. -/
structure PatternRecognizer where
  window_size : Nat
  gaze_window : List ℚ
  pitch_window : List ℚ
  ear_window : List ℚ
deriving DecidableEq, Repr

/-- Fresh `PatternRecognizer.__init__` state. -/
def PatternRecognizer.init (window_size : Nat) : PatternRecognizer :=
  { window_size := window_size, gaze_window := [], pitch_window := [], ear_window := [] }

/-- `PatternRecognizer.add_sample`: append each present value to its
window (the deque evicts the oldest entry when full). -/
def add_sample (pr : PatternRecognizer) (gaze pitch ear : Option ℚ) : PatternRecognizer :=
  { pr with
    gaze_window := match gaze with
      | none => pr.gaze_window
      | some g => dequeAppend pr.window_size pr.gaze_window g
    pitch_window := match pitch with
      | none => pr.pitch_window
      | some p => dequeAppend pr.window_size pr.pitch_window p
    ear_window := match ear with
      | none => pr.ear_window
      | some e => dequeAppend pr.window_size pr.ear_window e }

/-- One step of the two-state blink machine of `detect_blink_pattern`:
the accumulator is `(blinks, in_blink)`; a sample strictly below the
0.15 threshold while open counts a blink and enters the blink; a sample
strictly above the threshold leaves it; a sample equal to the threshold
changes nothing. -/
def blinkStep : Nat × Bool → ℚ → Nat × Bool
  | (blinks, in_blink), e =>
    if e < 15/100 ∧ in_blink = false then (blinks + 1, true)
    else if 15/100 < e then (blinks, false)
    else (blinks, in_blink)

/-- `PatternRecognizer.detect_blink_pattern`. -/
def detect_blink_pattern (pr : PatternRecognizer) : Bool × Nat :=
  if pr.ear_window.length < 60 then
    (true, 0)
  else
    let blinks := (pr.ear_window.foldl blinkStep (0, false)).1
    let is_natural := decide (0 ≤ blinks ∧ blinks ≤ 3)
    let is_natural :=
      if pr.ear_window.length = pr.window_size ∧ blinks = 0 then false else is_natural
    (is_natural, blinks)

/-- Spec-side count of the falling-edge crossings of `ear < 0.15`: a
crossing is a sample strictly below the threshold reached from the open
state; once inside a blink, everything up to (and including) the first
sample strictly above the threshold is skipped, so a crossing is never
re-counted while below the threshold. -/
def fallingEdges : List ℚ → Nat
  | [] => 0
  | e :: rest =>
    if e < 15/100 then
      1 + fallingEdges (rest.dropWhile (fun y => decide (y ≤ 15/100)))
    else
      fallingEdges rest
termination_by xs => xs.length
decreasing_by
  · exact Nat.lt_succ_of_le (List.dropWhile_sublist _).length_le
  · exact Nat.lt_succ_self _

/-! ### AdaptiveAttentionScorer (`adaptive_scorer.py`) -/

/-- Arithmetic mean (`np.mean`). -/
def mean (xs : List ℚ) : ℚ := xs.sum / xs.length

/-- Population variance (`np.var`, ddof = 0). -/
def variance (xs : List ℚ) : ℚ :=
  (xs.map (fun x => (x - mean xs) ^ 2)).sum / xs.length

/-- `np.percentile` with the default linear interpolation: on the
sorted samples, the value at fractional position `q/100 * (n-1)`. -/
def percentile (q : ℚ) (xs : List ℚ) : ℚ :=
  let sorted := xs.insertionSort (fun a b => a ≤ b)
  let n := sorted.length
  if n = 0 then 0
  else
    let pos : ℚ := q / 100 * ((n : ℚ) - 1)
    let i := (⌊pos⌋).toNat
    let frac : ℚ := pos - (i : ℚ)
    match sorted.get? i, sorted.get? (i + 1) with
    | some a, some b => a + frac * (b - a)
    | some a, none => a
    | _, _ => 0

/-- State of `AdaptiveAttentionScorer`: current thresholds, calibration
flag, the five baseline accumulators and the three anomaly histories. -/
structure ScorerState where
  user_id : String
  ear_thresh : ℚ
  gaze_thresh : ℚ
  roll_thresh : ℚ
  pitch_thresh : ℚ
  yaw_thresh : ℚ
  is_calibrated : Bool
  ear_baseline : List ℚ
  gaze_baseline : List ℚ
  pitch_baseline : List ℚ
  yaw_baseline : List ℚ
  roll_baseline : List ℚ
  ear_history : List ℚ
  gaze_history : List ℚ
  pitch_history : List ℚ
deriving DecidableEq, Repr

/-- `AdaptiveAttentionScorer.__init__` state before `_load_calibration`
runs: the fixed default thresholds and empty accumulators. -/
def initScorer (user_id : String) : ScorerState :=
  { user_id := user_id
    ear_thresh := 15/100, gaze_thresh := 2/10, roll_thresh := 60
    pitch_thresh := 20, yaw_thresh := 30
    is_calibrated := false
    ear_baseline := [], gaze_baseline := [], pitch_baseline := []
    yaw_baseline := [], roll_baseline := []
    ear_history := [], gaze_history := [], pitch_history := [] }

/-- `AdaptiveAttentionScorer.add_calibration_sample`. -/
def add_calibration_sample (st : ScorerState)
    (ear gaze pitch yaw roll : Option ℚ) : ScorerState :=
  { st with
    ear_baseline := st.ear_baseline ++ optList ear
    gaze_baseline := st.gaze_baseline ++ optList gaze
    pitch_baseline := st.pitch_baseline ++ optList pitch
    yaw_baseline := st.yaw_baseline ++ optList yaw
    roll_baseline := st.roll_baseline ++ optList roll }

/-- The `|mean| + k * std` threshold shape used for pitch/yaw/roll in
`finalize_calibration` (`np.std` is `sqrtQ` of the population variance). -/
def stdThresh (sqrtQ : ℚ → ℚ) (k : ℚ) (xs : List ℚ) : ℚ :=
  abs (mean xs) + k * sqrtQ (variance xs)

/-- `AdaptiveAttentionScorer.finalize_calibration`.  `sqrtQ` abstracts
the numeric square root used by `np.std` (irrational in general, so not
representable as a fixed rational function); every claim settled below
holds for an arbitrary `sqrtQ`. -/
def finalize_calibration (sqrtQ : ℚ → ℚ) (st : ScorerState)
    (min_samples : Nat) : Bool × ScorerState :=
  if st.ear_baseline.length < min_samples then
    (false, st)
  else
    let st := if st.ear_baseline ≠ [] then
        { st with ear_thresh := percentile 25 st.ear_baseline * (9/10) } else st
    let st := if st.gaze_baseline ≠ [] then
        { st with gaze_thresh := percentile 75 st.gaze_baseline * (12/10) } else st
    let st := if st.pitch_baseline ≠ [] then
        { st with pitch_thresh := stdThresh sqrtQ (15/10) st.pitch_baseline } else st
    let st := if st.yaw_baseline ≠ [] then
        { st with yaw_thresh := stdThresh sqrtQ (15/10) st.yaw_baseline } else st
    let st := if st.roll_baseline ≠ [] then
        { st with roll_thresh := stdThresh sqrtQ 2 st.roll_baseline } else st
    (true, { st with is_calibrated := true })

/-- `AdaptiveAttentionScorer.detect_anomaly`: append present values,
truncate each history to its last 100 entries, then test the variance
floors once at least 30 ear entries exist. -/
def detect_anomaly (st : ScorerState) (ear gaze pitch : Option ℚ) :
    Bool × ScorerState :=
  let eh := pyTail 100 (st.ear_history ++ optList ear)
  let gh := pyTail 100 (st.gaze_history ++ optList gaze)
  let ph := pyTail 100 (st.pitch_history ++ optList pitch)
  let st := { st with ear_history := eh, gaze_history := gh, pitch_history := ph }
  if eh.length < 30 then
    (false, st)
  else
    let ear_var := if eh ≠ [] then variance (pyTail 30 eh) else 1
    let gaze_var := if gh ≠ [] then variance (pyTail 30 gh) else 1
    let pitch_var := if ph ≠ [] then variance (pyTail 30 ph) else 1
    (decide (ear_var < 1/10000 ∨ gaze_var < 1/1000 ∨ pitch_var < 1/2), st)

/-- The `ThresholdSet` returned by `get_thresholds`. -/
structure ThresholdSet where
  ear_thresh : ℚ
  gaze_thresh : ℚ
  roll_thresh : ℚ
  pitch_thresh : ℚ
  yaw_thresh : ℚ
deriving DecidableEq, Repr

/-- `AdaptiveAttentionScorer.get_thresholds`. -/
def get_thresholds (st : ScorerState) : ThresholdSet :=
  { ear_thresh := st.ear_thresh, gaze_thresh := st.gaze_thresh
    roll_thresh := st.roll_thresh, pitch_thresh := st.pitch_thresh
    yaw_thresh := st.yaw_thresh }

/-- The persisted calibration record written by `_save_calibration`:
user id, calibrated flag, the threshold set, and the ear/gaze/pitch
sample counts — no raw baseline samples. -/
structure SavedCalibration where
  user_id : String
  is_calibrated : Bool
  thresholds : ThresholdSet
  ear_samples : Nat
  gaze_samples : Nat
  pitch_samples : Nat
deriving DecidableEq, Repr

/-- `AdaptiveAttentionScorer._save_calibration` (the record it writes). -/
def save_calibration (st : ScorerState) : SavedCalibration :=
  { user_id := st.user_id
    is_calibrated := st.is_calibrated
    thresholds := get_thresholds st
    ear_samples := st.ear_baseline.length
    gaze_samples := st.gaze_baseline.length
    pitch_samples := st.pitch_baseline.length }

/-- `AdaptiveAttentionScorer._load_calibration`: a missing record leaves
the state untouched; a record for a different `user_id` is ignored;
otherwise the stored thresholds and flag are installed. -/
def load_calibration (st : ScorerState) (data : Option SavedCalibration) : ScorerState :=
  match data with
  | none => st
  | some d =>
    if d.user_id = st.user_id then
      { st with
        ear_thresh := d.thresholds.ear_thresh
        gaze_thresh := d.thresholds.gaze_thresh
        roll_thresh := d.thresholds.roll_thresh
        pitch_thresh := d.thresholds.pitch_thresh
        yaw_thresh := d.thresholds.yaw_thresh
        is_calibrated := d.is_calibrated }
    else st

/-- `AdaptiveAttentionScorer.__init__` with a stored record available:
defaults, then `_load_calibration`. -/
def newScorer (user_id : String) (stored : Option SavedCalibration) : ScorerState :=
  load_calibration (initScorer user_id) stored

/-! ## Supporting lemmas -/

theorem pyTail_eq_self {n : Nat} {xs : List α} (h : xs.length ≤ n) : pyTail n xs = xs := by
  simp [pyTail, Nat.sub_eq_zero_of_le h]

theorem length_pyTail_le (n : Nat) (xs : List α) : (pyTail n xs).length ≤ n := by
  simp only [pyTail, List.length_drop]
  omega

/-! ## Claims -/

/-- C1.  With `face_detected = false`, `analyze_context` returns the
triple `(FaceMissing, true, 0.8)` for every input and every analyzer
state, and its only state change is appending `FaceMissing` to the
activity history. -/
theorem C1_face_missing (st : ContextAnalyzer) (t : ℚ)
    (pitch yaw roll gaze ear : Option ℚ) (objects : DetectedObjects) :
    analyze_context st t pitch yaw roll gaze ear objects false =
      ((ActivityType.FACE_MISSING, true, 8/10),
       { st with activity_history :=
           dequeAppend 30 st.activity_history ActivityType.FACE_MISSING }) := by
  rfl

/-- C2.  The phone rule of the classifier: with a face, a detected cell
phone at pitch `-10` (no bottle or cup) yields `(PhoneDistraction, true,
0.9)`; pitch `-65` with no objects yields the same via the steep-angle
fallback; and in general the classifier returns `PhoneDistraction`
whenever the phone object is present or `pitch < -60`, provided the
drinking rule `(bottle ∨ cup) ∧ pitch > -15` did not match first. -/
theorem C2_phone_rule (st : ContextAnalyzer) (t : ℚ)
    (yaw roll gaze ear : Option ℚ) (objects : DetectedObjects) (p : ℚ)
    (has_book has_phone has_laptop has_bottle has_cup : Bool) :
    (objects.cell_phone = true → objects.bottle = false → objects.cup = false →
      (analyze_context st t (some (-10)) yaw roll gaze ear objects true).1 =
        (ActivityType.PHONE_DISTRACTION, true, 9/10)) ∧
    ((analyze_context st t (some (-65)) yaw roll gaze ear
        ⟨false, false, false, false, false⟩ true).1 =
      (ActivityType.PHONE_DISTRACTION, true, 9/10)) ∧
    ((has_phone = true ∨ p < -60) →
      ¬((has_bottle = true ∨ has_cup = true) ∧ -15 < p) →
      classify_activity (some p) yaw gaze ear
          has_book has_phone has_laptop has_bottle has_cup =
        ActivityType.PHONE_DISTRACTION) := by
  refine ⟨?_, ?_, ?_⟩
  · intro h1 h2 h3
    simp only [analyze_context, reduceIte]
    rw [h1, h2, h3]
    have hcls : classify_activity (some (-10)) yaw gaze ear
        objects.book true objects.laptop false false =
        ActivityType.PHONE_DISTRACTION := by
      simp [classify_activity]
    rw [hcls]
    simp [evaluate_distraction, productive]
  · have hcls : classify_activity (some (-65)) yaw gaze ear
        false false false false false = ActivityType.PHONE_DISTRACTION := by
      simp [classify_activity]
      norm_num
    simp only [analyze_context, reduceIte]
    rw [hcls]
    simp [evaluate_distraction, productive]
  · intro h1 h2
    simp only [classify_activity]
    rw [if_neg, if_pos]
    · rcases h1 with h | h
      · exact Or.inl h
      · exact Or.inr h
    · intro hc
      rcases hc with ⟨hb, hp⟩
      exact h2 ⟨by rcases Bool.or_eq_true_iff.mp hb with h | h <;> [exact Or.inl h; exact Or.inr h], hp⟩

/-- Witness for C2 at concrete inputs. -/
theorem C2_phone_rule_witness :
    (analyze_context ContextAnalyzer.init 0 (some (-10)) none none none none
        ⟨false, true, false, false, false⟩ true).1 =
      (ActivityType.PHONE_DISTRACTION, true, 9/10) ∧
    (analyze_context ContextAnalyzer.init 0 (some (-65)) none none none none
        ⟨false, false, false, false, false⟩ true).1 =
      (ActivityType.PHONE_DISTRACTION, true, 9/10) ∧
    classify_activity (some (-65)) none none none false false false false false =
      ActivityType.PHONE_DISTRACTION := by
  obtain ⟨h1, h2, h3⟩ := C2_phone_rule ContextAnalyzer.init 0 none none none none
    ⟨false, true, false, false, false⟩ (-65) false false false false false
  exact ⟨h1 rfl rfl rfl, h2, h3 (Or.inr (by norm_num)) (by norm_num)⟩

/-- C9.  The persisted calibration record round-trips: loading a
just-saved record into a fresh scorer for the same user reproduces the
five threshold values and the calibrated flag. -/
theorem C9_roundtrip (st : ScorerState) :
    get_thresholds (newScorer st.user_id (some (save_calibration st))) =
      get_thresholds st ∧
    (newScorer st.user_id (some (save_calibration st))).is_calibrated =
      st.is_calibrated := by
  simp [newScorer, load_calibration, save_calibration, get_thresholds, initScorer]

/-- C3.  `finalize_calibration` with `min_samples = 50` fails (returns
`false`, state — in particular all five thresholds — untouched) when
fewer than 50 ear-baseline entries exist; with 50 or more it returns
`true` and sets `ear_thresh` to exactly the 25th percentile of the
ear-baseline samples times `0.9`.  `sqrtQ` is the abstract square root
used by the std-based thresholds; the result holds for any. -/
theorem C3_finalize_calibration (sqrtQ : ℚ → ℚ) (st : ScorerState) :
    (st.ear_baseline.length < 50 → finalize_calibration sqrtQ st 50 = (false, st)) ∧
    (50 ≤ st.ear_baseline.length →
      (finalize_calibration sqrtQ st 50).1 = true ∧
      (finalize_calibration sqrtQ st 50).2.ear_thresh =
        percentile 25 st.ear_baseline * (9/10)) := by
  constructor
  · intro h
    simp [finalize_calibration, h]
  · intro h
    have hne : st.ear_baseline ≠ [] := by
      intro hnil
      rw [hnil] at h
      simp at h
    simp only [finalize_calibration, if_neg (not_lt.mpr h)]
    rw [if_pos hne]
    constructor
    · first
      | trivial
      | (split_ifs <;> rfl)
    · first
      | trivial
      | (split_ifs <;> rfl)

/-- Witness for C3: 49 samples fail and change nothing; 50 samples
succeed with the exact percentile formula. -/
theorem C3_finalize_calibration_witness :
    finalize_calibration (fun q => q)
        { initScorer "u" with ear_baseline := List.replicate 49 (2/10 : ℚ) } 50 =
      (false, { initScorer "u" with ear_baseline := List.replicate 49 (2/10 : ℚ) }) ∧
    (finalize_calibration (fun q => q)
        { initScorer "u" with ear_baseline := List.replicate 50 (2/10 : ℚ) } 50).1 = true ∧
    (finalize_calibration (fun q => q)
        { initScorer "u" with ear_baseline := List.replicate 50 (2/10 : ℚ) } 50).2.ear_thresh =
      percentile 25 (List.replicate 50 (2/10 : ℚ)) * (9/10) := by
  refine ⟨(C3_finalize_calibration (fun q => q) _).1 (by decide), ?_, ?_⟩
  · exact ((C3_finalize_calibration (fun q => q) _).2 (by decide)).1
  · exact ((C3_finalize_calibration (fun q => q) _).2 (by decide)).2

/-- C7 counterexample.  The claim says a successful
`finalize_calibration` clears the five baseline accumulators; on a
concrete profile with 50 ear samples the call succeeds yet the
ear-baseline accumulator still holds all 50 raw samples. -/
theorem C7_counterexample :
    (finalize_calibration (fun q => q)
        { initScorer "u" with ear_baseline := List.replicate 50 (2/10 : ℚ) } 50).1 = true ∧
    (finalize_calibration (fun q => q)
        { initScorer "u" with ear_baseline := List.replicate 50 (2/10 : ℚ) } 50).2.ear_baseline =
      List.replicate 50 (2/10 : ℚ) := by
  constructor <;> decide

/-- C7 amended.  A successful `finalize_calibration` leaves all five
in-memory baseline accumulators unchanged (they are not cleared); only
the persisted record discards the raw samples — it consists of the user
id, the calibrated flag, the derived threshold set, and the
ear/gaze/pitch sample counts. -/
theorem C7_baselines_persist (sqrtQ : ℚ → ℚ) (st : ScorerState)
    (h : (finalize_calibration sqrtQ st 50).1 = true) :
    (finalize_calibration sqrtQ st 50).2.ear_baseline = st.ear_baseline ∧
    (finalize_calibration sqrtQ st 50).2.gaze_baseline = st.gaze_baseline ∧
    (finalize_calibration sqrtQ st 50).2.pitch_baseline = st.pitch_baseline ∧
    (finalize_calibration sqrtQ st 50).2.yaw_baseline = st.yaw_baseline ∧
    (finalize_calibration sqrtQ st 50).2.roll_baseline = st.roll_baseline ∧
    save_calibration (finalize_calibration sqrtQ st 50).2 =
      { user_id := st.user_id
        is_calibrated := true
        thresholds := get_thresholds (finalize_calibration sqrtQ st 50).2
        ear_samples := st.ear_baseline.length
        gaze_samples := st.gaze_baseline.length
        pitch_samples := st.pitch_baseline.length } := by
  by_cases hlen : st.ear_baseline.length < 50
  · simp [finalize_calibration, hlen] at h
  · simp only [finalize_calibration, if_neg hlen] at h ⊢
    split_ifs <;> simp [save_calibration, get_thresholds]

/-- Witness for C7's amended statement at a concrete profile. -/
theorem C7_baselines_persist_witness :
    (finalize_calibration (fun q => q)
        { initScorer "u" with ear_baseline := List.replicate 50 (2/10 : ℚ) } 50).2.ear_baseline =
      List.replicate 50 (2/10 : ℚ) := by
  exact (C7_baselines_persist (fun q => q) _ (by decide)).1

/-- C4 counterexample.  The claim says `is_sustained_distraction (3, 30)`
is true whenever at least 80% of the last 90 history entries are
distracted; with exactly 72 of 90 (exactly 80%) the code returns
`false`, because it demands strictly more than 80%. -/
theorem C4_counterexample :
    (List.replicate 72 ActivityType.PHONE_DISTRACTION ++
        List.replicate 18 ActivityType.FOCUSED_STUDYING).length = 90 ∧
    (8/10 : ℚ) * 90 ≤
      ((pyTail 90 (List.replicate 72 ActivityType.PHONE_DISTRACTION ++
          List.replicate 18 ActivityType.FOCUSED_STUDYING)).countP distractedActivity : ℚ) ∧
    is_sustained_distraction
      ⟨List.replicate 72 ActivityType.PHONE_DISTRACTION ++
          List.replicate 18 ActivityType.FOCUSED_STUDYING,
        none, ActivityType.UNKNOWN⟩ 3 30 = false := by
  refine ⟨by decide, by decide, by decide⟩

/-- C4 amended.  `is_sustained_distraction (3.0, 30.0)` is false whenever
the history has fewer than 90 entries, and it is true exactly when the
history has at least 90 entries and strictly more than 80% of the last
90 (at least 73) are in {PhoneDistraction, FaceMissing, LookingAway}. -/
theorem C4_sustained (st : ContextAnalyzer) :
    (st.activity_history.length < 90 → is_sustained_distraction st 3 30 = false) ∧
    (is_sustained_distraction st 3 30 = true ↔
      90 ≤ st.activity_history.length ∧
        72 < (pyTail 90 st.activity_history).countP distractedActivity) := by
  have hreq : pyInt ((3 : ℚ) * 30) = 90 := by
    norm_num [pyInt]
  constructor
  · intro h
    simp only [is_sustained_distraction, hreq]
    rw [if_pos (by exact_mod_cast h)]
  · simp only [is_sustained_distraction, hreq]
    by_cases h : (st.activity_history.length : ℤ) < 90
    · rw [if_pos h]
      constructor
      · intro ht
        simp at ht
      · rintro ⟨h90, _⟩
        exfalso
        have hz : ((90 : ℕ) : ℤ) ≤ (st.activity_history.length : ℤ) := by
          exact_mod_cast h90
        omega
    · rw [if_neg h]
      have h90 : 90 ≤ st.activity_history.length := by exact_mod_cast not_lt.mp h
      have hslice : pySliceFrom (-(90 : ℤ)) st.activity_history =
          pyTail 90 st.activity_history := by
        simp [pySliceFrom, pyTail]
      rw [hslice]
      set c := (pyTail 90 st.activity_history).countP distractedActivity with hc
      constructor
      · intro ht
        refine ⟨h90, ?_⟩
        have : ((8/10 : ℚ)) < (c : ℚ) / 90 := by
          have := of_decide_eq_true ht
          exact this
        rw [lt_div_iff₀ (by norm_num : (0:ℚ) < 90)] at this
        have h72 : ((72 : ℕ) : ℚ) < (c : ℚ) := by push_cast; linarith
        exact_mod_cast h72
      · rintro ⟨_, h73⟩
        apply decide_eq_true
        have h72 : ((72 : ℚ)) < (c : ℚ) := by exact_mod_cast h73
        rw [gt_iff_lt]
        push_cast
        rw [lt_div_iff₀ (by norm_num : (0:ℚ) < 90)]
        linarith

/-- Witness for C4's amended statement: 73 of 90 distracted frames give
`true`, 89 entries give `false`. -/
theorem C4_sustained_witness :
    is_sustained_distraction
      ⟨List.replicate 73 ActivityType.PHONE_DISTRACTION ++
          List.replicate 17 ActivityType.FOCUSED_STUDYING,
        none, ActivityType.UNKNOWN⟩ 3 30 = true ∧
    is_sustained_distraction
      ⟨List.replicate 89 ActivityType.PHONE_DISTRACTION,
        none, ActivityType.UNKNOWN⟩ 3 30 = false := by
  constructor
  · exact (C4_sustained _).2.mpr ⟨by decide, by decide⟩
  · exact (C4_sustained _).1 (by decide)

/-- Shared: the three anomaly histories after `detect_anomaly` are the
last 100 entries of the old history with the present value appended. -/
theorem detect_anomaly_histories (st : ScorerState) (ear gaze pitch : Option ℚ) :
    (detect_anomaly st ear gaze pitch).2.ear_history =
      pyTail 100 (st.ear_history ++ optList ear) ∧
    (detect_anomaly st ear gaze pitch).2.gaze_history =
      pyTail 100 (st.gaze_history ++ optList gaze) ∧
    (detect_anomaly st ear gaze pitch).2.pitch_history =
      pyTail 100 (st.pitch_history ++ optList pitch) := by
  simp only [detect_anomaly]
  split_ifs <;> simp

/-- C6.  `detect_anomaly` returns false while the (post-append) ear
history has fewer than 30 entries; with at least 30 it returns true iff
the variance of the last 30 ear entries is below 1/10000, or the gaze
history is nonempty with the variance of its last 30 entries below
1/1000, or the pitch history is nonempty with the variance of its last
30 entries below 1/2 (an absent signal defaults its variance to 1 and
so never triggers the anomaly). -/
theorem C6_detect_anomaly (st : ScorerState) (ear gaze pitch : Option ℚ) :
    ((detect_anomaly st ear gaze pitch).2.ear_history.length < 30 →
      (detect_anomaly st ear gaze pitch).1 = false) ∧
    (30 ≤ (detect_anomaly st ear gaze pitch).2.ear_history.length →
      ((detect_anomaly st ear gaze pitch).1 = true ↔
        (variance (pyTail 30 (detect_anomaly st ear gaze pitch).2.ear_history) < 1/10000 ∨
         ((detect_anomaly st ear gaze pitch).2.gaze_history ≠ [] ∧
           variance (pyTail 30 (detect_anomaly st ear gaze pitch).2.gaze_history) < 1/1000) ∨
         ((detect_anomaly st ear gaze pitch).2.pitch_history ≠ [] ∧
           variance (pyTail 30 (detect_anomaly st ear gaze pitch).2.pitch_history) < 1/2)))) := by
  by_cases h : (pyTail 100 (st.ear_history ++ optList ear)).length < 30
  · constructor
    · intro _
      simp [detect_anomaly, h]
    · intro h30
      exfalso
      simp only [detect_anomaly] at h30
      rw [if_pos h] at h30
      simp at h30
      omega
  · have hne : pyTail 100 (st.ear_history ++ optList ear) ≠ [] := by
      intro hnil
      rw [hnil] at h
      simp at h
    constructor
    · intro hlt
      exfalso
      simp only [detect_anomaly] at hlt
      rw [if_neg h] at hlt
      simp at hlt
      omega
    · intro _
      simp only [detect_anomaly]
      rw [if_neg h]
      simp only [hne, ne_eq, not_false_eq_true, if_true, decide_eq_true_eq]
      by_cases hg : pyTail 100 (st.gaze_history ++ optList gaze) = [] <;>
        by_cases hp : pyTail 100 (st.pitch_history ++ optList pitch) = [] <;>
          simp [hg, hp] <;> norm_num

set_option maxRecDepth 40000 in
/-- Witness for C6: a first call returns false (1 < 30 entries); a call
on 29 identical prior samples reaches 30 entries of zero variance and
returns true. -/
theorem C6_detect_anomaly_witness :
    (detect_anomaly (initScorer "u") (some (2/10)) none none).1 = false ∧
    (detect_anomaly
        { initScorer "u" with ear_history := List.replicate 29 (2/10 : ℚ) }
        (some (2/10)) none none).1 = true := by
  constructor
  · exact (C6_detect_anomaly _ _ _ _).1 (by decide)
  · exact ((C6_detect_anomaly _ _ _ _).2 (by decide)).mpr (Or.inl (by decide))

/-- C8.  The three PatternRecognizer windows never exceed `window_size`
entries and the three anomaly histories never exceed 100 entries; in
both cases the post-state buffer is exactly the capacity-suffix of the
old buffer with the new value appended, so the oldest entry is evicted
on overflow and FIFO order is preserved among the survivors. -/
theorem C8_bounded_buffers (pr : PatternRecognizer) (gaze pitch ear : Option ℚ)
    (st : ScorerState) (e2 g2 p2 : Option ℚ) :
    (pr.gaze_window.length ≤ pr.window_size →
      (add_sample pr gaze pitch ear).gaze_window =
        pyTail pr.window_size (pr.gaze_window ++ optList gaze) ∧
      (add_sample pr gaze pitch ear).gaze_window.length ≤ pr.window_size) ∧
    (pr.pitch_window.length ≤ pr.window_size →
      (add_sample pr gaze pitch ear).pitch_window =
        pyTail pr.window_size (pr.pitch_window ++ optList pitch) ∧
      (add_sample pr gaze pitch ear).pitch_window.length ≤ pr.window_size) ∧
    (pr.ear_window.length ≤ pr.window_size →
      (add_sample pr gaze pitch ear).ear_window =
        pyTail pr.window_size (pr.ear_window ++ optList ear) ∧
      (add_sample pr gaze pitch ear).ear_window.length ≤ pr.window_size) ∧
    ((detect_anomaly st e2 g2 p2).2.ear_history =
        pyTail 100 (st.ear_history ++ optList e2) ∧
      (detect_anomaly st e2 g2 p2).2.ear_history.length ≤ 100) ∧
    ((detect_anomaly st e2 g2 p2).2.gaze_history =
        pyTail 100 (st.gaze_history ++ optList g2) ∧
      (detect_anomaly st e2 g2 p2).2.gaze_history.length ≤ 100) ∧
    ((detect_anomaly st e2 g2 p2).2.pitch_history =
        pyTail 100 (st.pitch_history ++ optList p2) ∧
      (detect_anomaly st e2 g2 p2).2.pitch_history.length ≤ 100) := by
  obtain ⟨he, hg, hp⟩ := detect_anomaly_histories st e2 g2 p2
  refine ⟨?_, ?_, ?_, ?_, ?_, ?_⟩
  · intro h
    cases gaze with
    | none =>
      constructor
      · simp [add_sample, optList, pyTail_eq_self h]
      · simpa [add_sample] using h
    | some g =>
      constructor
      · simp [add_sample, dequeAppend, optList]
      · simpa [add_sample, dequeAppend] using length_pyTail_le _ _
  · intro h
    cases pitch with
    | none =>
      constructor
      · simp [add_sample, optList, pyTail_eq_self h]
      · simpa [add_sample] using h
    | some p =>
      constructor
      · simp [add_sample, dequeAppend, optList]
      · simpa [add_sample, dequeAppend] using length_pyTail_le _ _
  · intro h
    cases ear with
    | none =>
      constructor
      · simp [add_sample, optList, pyTail_eq_self h]
      · simpa [add_sample] using h
    | some e =>
      constructor
      · simp [add_sample, dequeAppend, optList]
      · simpa [add_sample, dequeAppend] using length_pyTail_le _ _
  · exact ⟨he, he ▸ length_pyTail_le _ _⟩
  · exact ⟨hg, hg ▸ length_pyTail_le _ _⟩
  · exact ⟨hp, hp ▸ length_pyTail_le _ _⟩

/-- Witness for C8 at a concrete full window: appending to a full
3-element window keeps length 3 and evicts the oldest entry. -/
theorem C8_bounded_buffers_witness :
    (add_sample ⟨3, [1, 2, 3], [], []⟩ (some 4) none none).gaze_window = [2, 3, 4] ∧
    (detect_anomaly (initScorer "u") (some (2/10)) none none).2.ear_history = [2/10] := by
  obtain ⟨h1, _, _, h4, _, _⟩ :=
    C8_bounded_buffers ⟨3, [1, 2, 3], [], []⟩ (some 4) none none
      (initScorer "u") (some (2/10)) none none
  constructor
  · rw [(h1 (by decide)).1]
    decide
  · rw [h4.1]
    decide

/-- Shared: shape of `_evaluate_distraction`'s output — the flag is
true exactly when the severity reaches 2/10, a false flag comes only
with severity 0 or 1/10, and the severity is one of the seven constants
of the source. -/
theorem evaluate_distraction_shape (history : List ActivityType) (a : ActivityType)
    (p g e : Option ℚ) :
    ((evaluate_distraction history a p g e).1 = true ↔
      (2/10 : ℚ) ≤ (evaluate_distraction history a p g e).2) ∧
    ((evaluate_distraction history a p g e).1 = false →
      (evaluate_distraction history a p g e).2 = 0 ∨
      (evaluate_distraction history a p g e).2 = 1/10) ∧
    (evaluate_distraction history a p g e).2 ∈
      ([0, 1/10, 2/10, 3/10, 5/10, 8/10, 9/10] : List ℚ) := by
  cases a <;> simp [evaluate_distraction, productive]
  all_goals first
    | (split_ifs <;> norm_num)
    | norm_num
    | trivial

/-- C10.  For every call to `analyze_context`, the returned flag is true
iff the returned severity is at least 2/10; a false flag comes with
severity exactly 0 or 1/10; and the severity always lies in
{0, 1/10, 2/10, 3/10, 5/10, 8/10, 9/10} ⊆ [0, 1]. -/
theorem C10_severity (st : ContextAnalyzer) (t : ℚ)
    (pitch yaw roll gaze ear : Option ℚ) (objects : DetectedObjects) (face : Bool) :
    ((analyze_context st t pitch yaw roll gaze ear objects face).1.2.1 = true ↔
      (2/10 : ℚ) ≤ (analyze_context st t pitch yaw roll gaze ear objects face).1.2.2) ∧
    ((analyze_context st t pitch yaw roll gaze ear objects face).1.2.1 = false →
      (analyze_context st t pitch yaw roll gaze ear objects face).1.2.2 = 0 ∨
      (analyze_context st t pitch yaw roll gaze ear objects face).1.2.2 = 1/10) ∧
    (analyze_context st t pitch yaw roll gaze ear objects face).1.2.2 ∈
      ([0, 1/10, 2/10, 3/10, 5/10, 8/10, 9/10] : List ℚ) := by
  cases face
  · simp only [analyze_context, reduceIte]
    norm_num
  · simp only [analyze_context, reduceIte]
    exact evaluate_distraction_shape st.activity_history
      (classify_activity pitch yaw gaze ear objects.book objects.cell_phone
        objects.laptop objects.bottle objects.cup) pitch gaze ear

/-- Witness for C10 at a concrete call (face missing: flag true forces
severity at least 2/10). -/
theorem C10_severity_witness :
    (2/10 : ℚ) ≤ (analyze_context ContextAnalyzer.init 0 none none none none none
      ⟨false, false, false, false, false⟩ false).1.2.2 :=
  (C10_severity ContextAnalyzer.init 0 none none none none none
      ⟨false, false, false, false, false⟩ false).1.mp (by decide)

/-- Shared: once inside a blink, the machine's blink count is the count
the open-state machine produces on the suffix that starts at the first
strictly-above-threshold sample. -/
theorem blink_foldl_inblink (xs : List ℚ) (b : Nat) :
    (xs.foldl blinkStep (b, true)).1 =
      ((xs.dropWhile (fun y => decide (y ≤ 15/100))).foldl blinkStep (b, false)).1 := by
  induction xs generalizing b with
  | nil => simp
  | cons x rest ih =>
    by_cases hx : x ≤ 15/100
    · have hnlt : ¬(15/100 < (x : ℚ)) := not_lt.mpr hx
      have hstep : blinkStep (b, true) x = (b, true) := by
        simp [blinkStep, hnlt]
      rw [List.foldl_cons, hstep, List.dropWhile_cons, if_pos (by simpa using hx)]
      exact ih b
    · have hlt : (15/100 : ℚ) < x := not_le.mp hx
      have hnlt : ¬((x : ℚ) < 15/100) := not_lt.mpr (le_of_lt hlt)
      have h1 : blinkStep (b, true) x = (b, false) := by
        simp [blinkStep, hnlt, hlt]
      have h2 : blinkStep (b, false) x = (b, false) := by
        simp [blinkStep, hnlt, hlt]
      rw [List.foldl_cons, h1, List.dropWhile_cons, if_neg (by simpa using hx),
        List.foldl_cons, h2]

/-- Shared: the blink machine started open counts exactly the
falling-edge crossings of the window. -/
theorem blink_count_eq_fallingEdges (n : Nat) :
    ∀ xs : List ℚ, xs.length ≤ n →
      ∀ b : Nat, (xs.foldl blinkStep (b, false)).1 = b + fallingEdges xs := by
  induction n with
  | zero =>
    intro xs hxs b
    rw [List.length_eq_zero.mp (Nat.le_zero.mp hxs)]
    simp [fallingEdges]
  | succ n ih =>
    intro xs hxs b
    cases xs with
    | nil => simp [fallingEdges]
    | cons x rest =>
      have hrest : rest.length ≤ n := by
        simp only [List.length_cons] at hxs
        omega
      by_cases hx : x < 15/100
      · have hstep : blinkStep (b, false) x = (b + 1, true) := by
          simp [blinkStep, hx]
        have hdrop : (rest.dropWhile (fun y => decide (y ≤ 15/100))).length ≤ n :=
          le_trans (List.dropWhile_sublist _).length_le hrest
        rw [List.foldl_cons, hstep, blink_foldl_inblink, ih _ hdrop (b + 1)]
        simp only [fallingEdges]
        rw [if_pos hx]
        omega
      · have hstep : blinkStep (b, false) x = (b, false) := by
          by_cases h2 : (15/100 : ℚ) < x <;> simp [blinkStep, hx, h2]
        rw [List.foldl_cons, hstep, ih rest hrest b]
        simp only [fallingEdges]
        rw [if_neg hx]

/-- C5.  `detect_blink_pattern` returns `(true, 0)` whenever the ear
window holds fewer than 60 samples; otherwise the blink count equals
the number of falling-edge crossings of `ear < 15/100` (two-state
machine, no re-count while below threshold), and naturalness holds iff
the count is at most 3, except that a completely full window (exactly
`window_size` samples) with zero blinks forces it to false. -/
theorem C5_blink_pattern (pr : PatternRecognizer) :
    (pr.ear_window.length < 60 → detect_blink_pattern pr = (true, 0)) ∧
    (60 ≤ pr.ear_window.length →
      (detect_blink_pattern pr).2 = fallingEdges pr.ear_window ∧
      ((detect_blink_pattern pr).1 = true ↔
        (fallingEdges pr.ear_window ≤ 3 ∧
          ¬(pr.ear_window.length = pr.window_size ∧
            fallingEdges pr.ear_window = 0)))) := by
  have hcount : (pr.ear_window.foldl blinkStep (0, false)).1 = fallingEdges pr.ear_window := by
    simpa using blink_count_eq_fallingEdges pr.ear_window.length pr.ear_window le_rfl 0
  constructor
  · intro h
    simp [detect_blink_pattern, h]
  · intro h
    simp only [detect_blink_pattern, if_neg (not_lt.mpr h)]
    rw [hcount]
    refine ⟨rfl, ?_⟩
    split_ifs with hfull
    · simp [hfull]
    · simp only [decide_eq_true_eq, Nat.zero_le, true_and]
      constructor
      · intro h3
        exact ⟨h3, hfull⟩
      · intro h3
        exact h3.1

/-- Witness for C5: an empty window yields `(true, 0)`; a full
60-sample window with no sample below the threshold yields zero blinks
and is forced unnatural. -/
theorem C5_blink_pattern_witness :
    detect_blink_pattern (PatternRecognizer.init 60) = (true, 0) ∧
    detect_blink_pattern ⟨60, [], [], List.replicate 60 (2/10 : ℚ)⟩ = (false, 0) := by
  refine ⟨(C5_blink_pattern _).1 (by decide), by decide⟩

end DriverState
